import Mathlib

/-!
Verification of the SEO audit engine in `seo_audit_streamlit.py`
(`class AdvancedSEOAuditor`).  The Python source is embedded shallowly:

* findings appended to the five severity buckets of `self.results` become a
  `Finding` record (category string, severity, and a kind tagging the exact
  append site, carrying the payloads the claims mention);
* the parsed document (`self.soup`) becomes a rose tree of `Node`s with a
  tag, an attribute list and children, and the BeautifulSoup queries used by
  the checks (`find`, `find_all`, `get_text`, attribute access, `decompose`)
  become recursive functions over that tree;
* Python `float` arithmetic in `calculate_scores` and the performance check
  is idealised as exact rational arithmetic over `ℚ`, and Python `int()`
  truncation toward zero becomes `pyInt`;
* the Python string methods the checks use (`strip`, `lower`, `split()`,
  slicing, `in`) become the `py`-prefixed helpers below, defined by
  structural recursion over the character list so that they evaluate inside
  the kernel.
-/

/-- The five severity buckets of `self.results` (CRITICAL, HIGH, MEDIUM,
LOW, PASSED), ordered by descending urgency. -/
inductive Severity where
  | critical
  | high
  | medium
  | low
  | passed
deriving DecidableEq, Repr

/-- One constructor per finding-append site in the Python source that the
claims touch, carrying the payload fields the claims mention (lengths,
`h1_tags` lists, hierarchy issue lists). -/
inductive FKind where
  | missingTitle
  | emptyTitle
  | titleTooShort (n : Nat)
  | titleTooLong (n : Nat)
  | titleLengthOk (n : Nat)
  | noBrandSeparator
  | duplicateTitleWords
  | missingMetaDescription
  | emptyMetaDescription
  | descriptionTooShort (n : Nat)
  | descriptionTooLong (n : Nat)
  | descriptionLengthOk (n : Nat)
  | missingCTA
  | missingH1
  | multipleH1 (tags : List String)
  | h1Found (text : String)
  | h1TooShort (n : Nat)
  | brokenHierarchy (issues : List String)
  | hierarchyOk
  | slowLoadTime
  | improvableLoadTime
  | loadTimeOk
  | largePageSize
  | improvablePageSize
  | pageSizeOk
  | noCompression
deriving DecidableEq, Repr

/-- One entry of a severity bucket: the `category` key of the appended dict,
the `severity` key, and the kind identifying which append site produced it. -/
structure Finding where
  category : String
  severity : Severity
  kind : FKind
deriving DecidableEq, Repr

/-- The parts of `self.results` the claims are about: the five severity
buckets, `overall_score` and `category_scores`. -/
structure Results where
  criticalIssues : List Finding
  highPriority : List Finding
  mediumPriority : List Finding
  lowPriority : List Finding
  passedChecks : List Finding
  overallScore : ℤ
  categoryScores : List (String × ℤ)
deriving Repr

/-- The `self.results` dict as initialised in `AdvancedSEOAuditor.__init__`:
all five buckets empty, `overall_score` 0, `category_scores` empty. -/
def initialResults : Results :=
  { criticalIssues := []
    highPriority := []
    mediumPriority := []
    lowPriority := []
    passedChecks := []
    overallScore := 0
    categoryScores := [] }

/-- Python `int()` applied to a float value: truncation toward zero,
idealised over `ℚ`. -/
def pyInt (q : ℚ) : ℤ := if q < 0 then -⌊-q⌋ else ⌊q⌋

/-- `total_checks` in `calculate_scores`: the sum of the five bucket
lengths. -/
def totalChecks (r : Results) : ℕ :=
  r.criticalIssues.length + r.highPriority.length + r.mediumPriority.length +
    r.lowPriority.length + r.passedChecks.length

/-- `total_achieved` in `calculate_scores`:
`passed*1.0 - (low*0.1 + medium*0.3 + high*0.6 + critical*1.0)`. -/
def achievedScore (r : Results) : ℚ :=
  (r.passedChecks.length : ℚ) * 1 -
    ((r.lowPriority.length : ℚ) * (1 / 10) + (r.mediumPriority.length : ℚ) * (3 / 10) +
      (r.highPriority.length : ℚ) * (6 / 10) + (r.criticalIssues.length : ℚ) * 1)

/-- The fixed category list iterated by `calculate_scores` for category
scores. -/
def fixedCategories : List String :=
  ["Technical SEO", "Content Quality", "Performance", "Mobile Optimization", "Security"]

/-- `category_passed` in `calculate_scores`: passed checks whose `category`
equals the given name. -/
def categoryPassed (r : Results) (cat : String) : ℕ :=
  (r.passedChecks.filter (fun f => f.category == cat)).length

/-- `category_issues` in `calculate_scores`: critical, high and medium
findings of the category.  The low bucket is not consulted. -/
def categoryIssues (r : Results) (cat : String) : ℕ :=
  (r.criticalIssues.filter (fun f => f.category == cat)).length +
    (r.highPriority.filter (fun f => f.category == cat)).length +
    (r.mediumPriority.filter (fun f => f.category == cat)).length

/-- The value stored in `category_scores[category]`:
`int(category_passed/total*100)` when `total > 0`, else the default 100. -/
def categoryScoreVal (r : Results) (cat : String) : ℤ :=
  let p := categoryPassed r cat
  let i := categoryIssues r cat
  if p + i > 0 then pyInt ((p : ℚ) / ((p : ℚ) + (i : ℚ)) * 100) else 100

/-- `AdvancedSEOAuditor.calculate_scores`: writes `overall_score`
(`max(0, int(total_achieved/total_possible*100))` when any bucket is
non-empty, otherwise the field is left unchanged) and one category score per
fixed category name. -/
def calculateScores (r : Results) : Results :=
  let total := totalChecks r
  { r with
    overallScore :=
      if total > 0 then max 0 (pyInt (achievedScore r / (total : ℚ) * 100))
      else r.overallScore
    categoryScores := fixedCategories.map (fun c => (c, categoryScoreVal r c)) }

/-- A successful fetch as consumed by the checks: the parsed response
metadata recorded by `fetch_page` into `technical_data`.  The claims settled
here do not read the document through this record, so it only carries the
response facts. -/
structure PageData where
  statusCode : Nat
  responseTime : ℚ
  headers : List (String × String)
  redirects : Nat
  contentBytes : Nat

/-- `AdvancedSEOAuditor.run_comprehensive_audit`: `fetch_page` either fails
(`none`), in which case the method returns `self.results` immediately —
still the `__init__` state, before any check has run — or succeeds, and the
whole check pipeline runs.  The pipeline is a parameter because the failure
path returns before any of it executes. -/
def runComprehensiveAudit (checks : PageData → Results → Results)
    (fetched : Option PageData) : Results :=
  match fetched with
  | some pd => checks pd initialResults
  | none => initialResults

theorem pyInt_nonneg {q : ℚ} (h : 0 ≤ q) : 0 ≤ pyInt q := by
  unfold pyInt
  rw [if_neg (not_lt.mpr h)]
  exact Int.floor_nonneg.mpr h

theorem pyInt_le_of_le {q : ℚ} {n : ℤ} (hn : 0 ≤ n) (h : q ≤ (n : ℚ)) : pyInt q ≤ n := by
  unfold pyInt
  split
  · have hfloor : (0 : ℤ) ≤ ⌊-q⌋ := by
      apply Int.floor_nonneg.mpr
      linarith
    omega
  · have h1 : ⌊q⌋ < n + 1 := by
      rw [Int.floor_lt]
      push_cast
      linarith
    omega

/-- C1: the overall score written by `calculate_scores` (from the initial
`overall_score = 0`) is an integer in `[0,100]`; it is 0 when all five
buckets are empty (no division occurs), and when the total is positive it
equals `max(0, int(total_achieved/total*100))` with
`total_achieved = passed*1.0 - low*0.1 - medium*0.3 - high*0.6 - critical*1.0`. -/
theorem overall_score_bounds (r : Results) (h0 : r.overallScore = 0) :
    0 ≤ (calculateScores r).overallScore ∧
    (calculateScores r).overallScore ≤ 100 ∧
    (totalChecks r = 0 → (calculateScores r).overallScore = 0) ∧
    (0 < totalChecks r →
      (calculateScores r).overallScore =
        max 0 (pyInt (((r.passedChecks.length : ℚ) * 1 - (r.lowPriority.length : ℚ) * (1 / 10) -
          (r.mediumPriority.length : ℚ) * (3 / 10) - (r.highPriority.length : ℚ) * (6 / 10) -
          (r.criticalIssues.length : ℚ) * 1) / (totalChecks r : ℚ) * 100))) := by
  have hform : ((r.passedChecks.length : ℚ) * 1 - (r.lowPriority.length : ℚ) * (1 / 10) -
      (r.mediumPriority.length : ℚ) * (3 / 10) - (r.highPriority.length : ℚ) * (6 / 10) -
      (r.criticalIssues.length : ℚ) * 1) = achievedScore r := by
    unfold achievedScore; ring
  by_cases htot : 0 < totalChecks r
  · have hscore : (calculateScores r).overallScore =
        max 0 (pyInt (achievedScore r / (totalChecks r : ℚ) * 100)) := by
      unfold calculateScores
      simp [htot]
    have hple : (r.passedChecks.length : ℚ) ≤ (totalChecks r : ℚ) := by
      have : r.passedChecks.length ≤ totalChecks r := by unfold totalChecks; omega
      exact_mod_cast this
    have hach : achievedScore r ≤ (totalChecks r : ℚ) := by
      unfold achievedScore
      have hl : (0 : ℚ) ≤ (r.lowPriority.length : ℚ) * (1 / 10) := by positivity
      have hm : (0 : ℚ) ≤ (r.mediumPriority.length : ℚ) * (3 / 10) := by positivity
      have hh : (0 : ℚ) ≤ (r.highPriority.length : ℚ) * (6 / 10) := by positivity
      have hc : (0 : ℚ) ≤ (r.criticalIssues.length : ℚ) * 1 := by positivity
      linarith
    have htpos : (0 : ℚ) < (totalChecks r : ℚ) := by exact_mod_cast htot
    have hx : achievedScore r / (totalChecks r : ℚ) * 100 ≤ (100 : ℚ) := by
      have hdiv : achievedScore r / (totalChecks r : ℚ) ≤ 1 := by
        rw [div_le_one htpos]; exact hach
      nlinarith
    have hle100 : pyInt (achievedScore r / (totalChecks r : ℚ) * 100) ≤ 100 := by
      have : ((100 : ℤ) : ℚ) = (100 : ℚ) := by norm_num
      exact pyInt_le_of_le (by norm_num) (by rw [this]; exact hx)
    refine ⟨?_, ?_, ?_, ?_⟩
    · rw [hscore]; exact le_max_left 0 _
    · rw [hscore]; exact max_le (by norm_num) hle100
    · intro hz; omega
    · intro _; rw [hscore, hform]
  · have hz : totalChecks r = 0 := by omega
    have hscore : (calculateScores r).overallScore = r.overallScore := by
      unfold calculateScores
      simp [hz]
    refine ⟨?_, ?_, ?_, ?_⟩
    · rw [hscore, h0]
    · rw [hscore, h0]; norm_num
    · intro _; rw [hscore, h0]
    · intro hc; omega

/-- Witness for `overall_score_bounds` at the initial (all-empty) results. -/
theorem overall_score_bounds_witness :
    initialResults.overallScore = 0 ∧
    (0 ≤ (calculateScores initialResults).overallScore ∧
      (calculateScores initialResults).overallScore ≤ 100 ∧
      (totalChecks initialResults = 0 → (calculateScores initialResults).overallScore = 0) ∧
      (0 < totalChecks initialResults →
        (calculateScores initialResults).overallScore =
          max 0 (pyInt (((initialResults.passedChecks.length : ℚ) * 1 -
            (initialResults.lowPriority.length : ℚ) * (1 / 10) -
            (initialResults.mediumPriority.length : ℚ) * (3 / 10) -
            (initialResults.highPriority.length : ℚ) * (6 / 10) -
            (initialResults.criticalIssues.length : ℚ) * 1) /
            (totalChecks initialResults : ℚ) * 100)))) :=
  ⟨rfl, overall_score_bounds initialResults rfl⟩

/-- C10: category scoring counts only CRITICAL, HIGH and MEDIUM findings as
issues — the low bucket never influences any category score; the score is the
truncated integer `passed/(passed+issues)*100`; `calculate_scores` writes a
score for each of the five fixed category names, defaulting to 100 when the
category has no counted finding at all. -/
theorem category_scores_spec (r : Results) (low' : List Finding) (cat : String) :
    categoryScoreVal { r with lowPriority := low' } cat = categoryScoreVal r cat ∧
    (calculateScores r).categoryScores.map Prod.fst = fixedCategories ∧
    (categoryPassed r cat + categoryIssues r cat = 0 → categoryScoreVal r cat = 100) ∧
    (0 < categoryPassed r cat + categoryIssues r cat →
      categoryScoreVal r cat =
        pyInt ((categoryPassed r cat : ℚ) /
          ((categoryPassed r cat : ℚ) + (categoryIssues r cat : ℚ)) * 100)) := by
  refine ⟨rfl, ?_, ?_, ?_⟩
  · simp [calculateScores, fixedCategories]
  · intro hz
    unfold categoryScoreVal
    simp only [hz]
    simp
  · intro hpos
    unfold categoryScoreVal
    simp only []
    rw [if_pos hpos]

/-- Witness for `category_scores_spec`: one passed Technical SEO finding, a
junk low bucket, and both the populated and the defaulted category. -/
theorem category_scores_spec_witness :
    (categoryScoreVal
        { initialResults with
          passedChecks := [⟨"Technical SEO", Severity.passed, FKind.titleLengthOk 40⟩],
          lowPriority := [⟨"Security & Trust", Severity.low, FKind.noCompression⟩] }
        "Technical SEO" =
      categoryScoreVal
        { initialResults with
          passedChecks := [⟨"Technical SEO", Severity.passed, FKind.titleLengthOk 40⟩] }
        "Technical SEO") ∧
    categoryScoreVal
        { initialResults with
          passedChecks := [⟨"Technical SEO", Severity.passed, FKind.titleLengthOk 40⟩] }
        "Technical SEO" = 100 ∧
    categoryScoreVal initialResults "Security" = 100 := by
  have base := category_scores_spec
    { initialResults with
      passedChecks := [⟨"Technical SEO", Severity.passed, FKind.titleLengthOk 40⟩] }
    [⟨"Security & Trust", Severity.low, FKind.noCompression⟩] "Technical SEO"
  have dflt := category_scores_spec initialResults [] "Security"
  refine ⟨base.1, ?_, dflt.2.2.1 (by decide)⟩
  have hp : categoryPassed
      { initialResults with
        passedChecks := [⟨"Technical SEO", Severity.passed, FKind.titleLengthOk 40⟩] }
      "Technical SEO" = 1 := by decide
  have hi : categoryIssues
      { initialResults with
        passedChecks := [⟨"Technical SEO", Severity.passed, FKind.titleLengthOk 40⟩] }
      "Technical SEO" = 0 := by decide
  rw [base.2.2.2 (by omega), hp, hi]
  norm_num [pyInt]

/-- C2: when `fetch_page` fails, `run_comprehensive_audit` returns
`self.results` as initialised in `__init__` — every severity bucket empty and
`overall_score = 0` — without running any check, whatever the check pipeline
would have done. -/
theorem failed_fetch_empty_report (checks : PageData → Results → Results) :
    runComprehensiveAudit checks none = initialResults ∧
    (runComprehensiveAudit checks none).criticalIssues = [] ∧
    (runComprehensiveAudit checks none).highPriority = [] ∧
    (runComprehensiveAudit checks none).mediumPriority = [] ∧
    (runComprehensiveAudit checks none).lowPriority = [] ∧
    (runComprehensiveAudit checks none).passedChecks = [] ∧
    (runComprehensiveAudit checks none).overallScore = 0 :=
  ⟨rfl, rfl, rfl, rfl, rfl, rfl, rfl⟩

/-- A node of the parsed document tree (`self.soup`): an element with a tag
name, an attribute list and children, or a text node.  A document is a list
of top-level nodes. -/
inductive Node where
  | elem (tag : String) (attrs : List (String × String)) (children : List Node)
  | text (s : String)
deriving Repr

/-- Reads an attribute of an element, `img.get(key)` style: `none` when the
attribute is absent (or the node is text), the first binding otherwise. -/
def attrOf (n : Node) (key : String) : Option String :=
  match n with
  | .elem _ attrs _ => (attrs.find? (fun p => p.1 == key)).map (fun p => p.2)
  | .text _ => none

/-- Whether a node is an element with the given tag name. -/
def hasTag (tag : String) (n : Node) : Bool :=
  match n with
  | .elem t _ _ => t == tag
  | .text _ => false

mutual
/-- The element itself (when the node is one) followed by its descendant
elements, in document (pre-)order. -/
def elemsOfNode : Node → List Node
  | .text _ => []
  | .elem t a c => .elem t a c :: elemsOfList c
/-- Document-order elements of a forest. -/
def elemsOfList : List Node → List Node
  | [] => []
  | n :: rest => elemsOfNode n ++ elemsOfList rest
end

/-- All elements of the document in the order BeautifulSoup `find_all`
enumerates them. -/
def allElems (doc : List Node) : List Node := elemsOfList doc

/-- `soup.find_all(tag)`. -/
def findAllTag (doc : List Node) (tag : String) : List Node :=
  (allElems doc).filter (hasTag tag)

/-- `soup.find(tag)`. -/
def findFirstTag (doc : List Node) (tag : String) : Option Node :=
  (findAllTag doc tag).head?

/-- `soup.find(tag, attrs={key: val})`: the first element with the tag whose
attribute `key` equals `val`. -/
def findTagAttr (doc : List Node) (tag key val : String) : Option Node :=
  ((allElems doc).filter (fun n => hasTag tag n && attrOf n key == some val)).head?

mutual
/-- `element.get_text()`: the concatenation of all descendant strings. -/
def textOf : Node → String
  | .text s => s
  | .elem _ _ c => textOfList c
/-- `get_text` over a child list. -/
def textOfList : List Node → String
  | [] => ""
  | n :: rest => textOf n ++ textOfList rest
end

mutual
/-- What remains of one node once elements with a tag in `bad` are
decomposed: the node vanishes when its tag matches, otherwise it survives
with pruned children. -/
def pruneNode (bad : List String) : Node → List Node
  | .text s => [.text s]
  | .elem t a c => if bad.contains t then [] else [.elem t a (pruneList bad c)]
/-- Pruning over a forest. -/
def pruneList (bad : List String) : List Node → List Node
  | [] => []
  | n :: rest => pruneNode bad n ++ pruneList bad rest
end

/-- The net effect of `for element in self.soup([tags]): element.decompose()`
at the top of `analyze_content_quality`: every element whose tag is in the
list is removed from the tree, together with its subtree. -/
def pruneTags (bad : List String) (doc : List Node) : List Node := pruneList bad doc

/-- The tag list decomposed by `analyze_content_quality` before computing the
word count: `script, style, nav, footer, header, aside`. -/
def nonContentTags : List String :=
  ["script", "style", "nav", "footer", "header", "aside"]

mutual
/-- Occurrences of a tag in one node. -/
def countTagNode (tag : String) : Node → Nat
  | .text _ => 0
  | .elem t _ c => (if t == tag then 1 else 0) + countTagList tag c
/-- Occurrences of a tag in a forest. -/
def countTagList (tag : String) : List Node → Nat
  | [] => 0
  | n :: rest => countTagNode tag n + countTagList tag rest
end

/-- Number of elements with the given tag anywhere in the forest. -/
def countTag (tag : String) (doc : List Node) : Nat := countTagList tag doc

/-- The effect of each of `run_comprehensive_audit`'s steps on `self.soup`,
in execution order.  Every check except `analyze_content_quality` only reads
the soup through `find` / `find_all` / `get_text` / attribute access;
`analyze_content_quality` (step 10) starts by decomposing the non-content
tags in place. -/
def auditSoupSequence : List (List Node → List Node) :=
  [ fun d => d,                  -- check_title_tag
    fun d => d,                  -- check_meta_description
    fun d => d,                  -- check_headings_structure
    fun d => d,                  -- check_images_optimization
    fun d => d,                  -- check_schema_markup
    fun d => d,                  -- check_mobile_optimization
    fun d => d,                  -- check_https_security
    fun d => d,                  -- check_canonical_url
    fun d => d,                  -- check_robots_meta
    pruneTags nonContentTags,    -- analyze_content_quality
    fun d => d,                  -- check_internal_linking
    fun d => d,                  -- check_open_graph
    fun d => d,                  -- check_page_performance
    fun d => d,                  -- check_redirects
    fun d => d,                  -- generate_insights
    fun d => d,                  -- generate_action_plan
    fun d => d ]                 -- calculate_scores

/-- The soup after the checks that precede `analyze_content_quality`. -/
def soupBeforeContentAnalysis (doc : List Node) : List Node :=
  (auditSoupSequence.take 9).foldl (fun s f => f s) doc

/-- The soup once the full check sequence has run. -/
def soupAfterChecks (doc : List Node) : List Node :=
  auditSoupSequence.foldl (fun s f => f s) doc

/-- A concrete page: a body holding a nav (with an in-site link) and some
text. -/
def navDoc : List Node :=
  [Node.elem "body" []
    [Node.elem "nav" [] [Node.elem "a" [("href", "/about")] [Node.text "About"]],
     Node.text "hello"]]

/-- C3 counterexample: the parsed document is not read-only over the run —
on `navDoc` the full check sequence removes the `nav` element (and the link
inside it) before `check_internal_linking` reads the soup. -/
theorem document_mutated_counterexample : soupAfterChecks navDoc ≠ navDoc := by
  intro h
  have h1 : countTag "nav" (soupAfterChecks navDoc) = 0 := by decide
  have h2 : countTag "nav" navDoc = 1 := by decide
  rw [h, h2] at h1
  exact absurd h1 one_ne_zero

/-- C3 amended: the document is left unchanged by every check before
`analyze_content_quality`; `analyze_content_quality` removes all
`script/style/nav/footer/header/aside` elements in place, so the checks that
run after it (internal linking, open graph, ...) read the pruned tree, and
the soup at the end of the run is exactly the pruned document. -/
theorem document_pruned_once (doc : List Node) :
    soupBeforeContentAnalysis doc = doc ∧
    soupAfterChecks doc = pruneTags nonContentTags doc :=
  ⟨rfl, rfl⟩

/-- Python `str.strip()`: drop whitespace from both ends. -/
def pyStrip (s : String) : String :=
  ⟨((s.data.dropWhile Char.isWhitespace).reverse.dropWhile Char.isWhitespace).reverse⟩

/-- Python `str.lower()`: lowercase every character. -/
def pyLower (s : String) : String := ⟨s.data.map Char.toLower⟩

/-- Worker for `pySplitWs`: accumulates the current (reversed) token. -/
def wsSplitGo (cur : List Char) : List Char → List String
  | [] => if cur.isEmpty then [] else [⟨cur.reverse⟩]
  | c :: rest =>
    if c.isWhitespace then
      (if cur.isEmpty then wsSplitGo [] rest else ⟨cur.reverse⟩ :: wsSplitGo [] rest)
    else wsSplitGo (c :: cur) rest

/-- Python `str.split()` with no argument: split on whitespace runs,
discarding empty tokens. -/
def pySplitWs (s : String) : List String := wsSplitGo [] s.data

/-- Whether the first list is a prefix of the second. -/
def listIsPrefix : List Char → List Char → Bool
  | [], _ => true
  | _ :: _, [] => false
  | a :: as, b :: bs => a == b && listIsPrefix as bs

/-- Whether `pat` occurs as a contiguous sublist. -/
def substrAux (pat : List Char) : List Char → Bool
  | [] => pat.isEmpty
  | s₀ :: rest => listIsPrefix pat (s₀ :: rest) || substrAux pat rest

/-- Python `pat in s` on strings: substring containment. -/
def containsStr (s pat : String) : Bool := substrAux pat.data s.data

/-- Python slicing `s[:n]`: the first `n` characters. -/
def strTake (s : String) (n : Nat) : String := ⟨s.data.take n⟩

/-- Python `c in s` for a single character. -/
def charIn (c : Char) (s : String) : Bool := s.data.contains c

/-- Python `str.isalpha()`: non-empty and every character alphabetic. -/
def isAlphaStr (s : String) : Bool := !s.isEmpty && s.data.all Char.isAlpha

/-- First-occurrence deduplication (the order-irrelevant content of Python
`set(words)`; only its cardinality is used by the title check). -/
def dedupFirstGo (seen : List String) : List String → List String
  | [] => []
  | w :: rest =>
    if seen.contains w then dedupFirstGo seen rest
    else w :: dedupFirstGo (w :: seen) rest

/-- The distinct members of a list, first occurrences first. -/
def dedupFirst (l : List String) : List String := dedupFirstGo [] l

/-- The `if/elif/else` chain of `check_title_tag` on the title length:
`< 30` HIGH (too short), `> 60` MEDIUM (too long), otherwise PASSED. -/
def titleLengthFindings (n : Nat) : List Finding :=
  if n < 30 then [⟨"Technical SEO", Severity.high, FKind.titleTooShort n⟩]
  else if n > 60 then [⟨"Technical SEO", Severity.medium, FKind.titleTooLong n⟩]
  else [⟨"Technical SEO", Severity.passed, FKind.titleLengthOk n⟩]

/-- The brand-separator sub-check of `check_title_tag`: MEDIUM when the
title contains neither a `|` nor a `-`. -/
def titleSeparatorFindings (s : String) : List Finding :=
  if !charIn '|' s && !charIn '-' s then
    [⟨"Technical SEO", Severity.medium, FKind.noBrandSeparator⟩]
  else []

/-- The duplicate-words sub-check of `check_title_tag`: LOW when
`len(words) != len(set(words))` for the lowercase split of the title. -/
def titleDuplicateFindings (s : String) : List Finding :=
  if (pySplitWs (pyLower s)).length ≠ (dedupFirst (pySplitWs (pyLower s))).length then
    [⟨"Technical SEO", Severity.low, FKind.duplicateTitleWords⟩]
  else []

/-- `AdvancedSEOAuditor.check_title_tag`: CRITICAL when the `<title>` tag is
absent or its stripped text empty (each an early return); otherwise the
length chain, then the separator sub-check, then the duplicate-words
sub-check. -/
def checkTitleTag (doc : List Node) : List Finding :=
  match findFirstTag doc "title" with
  | none => [⟨"Technical SEO", Severity.critical, FKind.missingTitle⟩]
  | some t =>
    if pyStrip (textOf t) = "" then
      [⟨"Technical SEO", Severity.critical, FKind.emptyTitle⟩]
    else
      titleLengthFindings (pyStrip (textOf t)).length ++
        titleSeparatorFindings (pyStrip (textOf t)) ++
        titleDuplicateFindings (pyStrip (textOf t))

theorem titleSeparatorFindings_severity (s : String) :
    ∀ f ∈ titleSeparatorFindings s, f.severity = Severity.medium := by
  intro f hf
  unfold titleSeparatorFindings at hf
  split at hf
  · simp at hf
    rw [hf]
  · simp at hf

theorem titleDuplicateFindings_severity (s : String) :
    ∀ f ∈ titleDuplicateFindings s, f.severity = Severity.low := by
  intro f hf
  unfold titleDuplicateFindings at hf
  split at hf
  · simp at hf
    rw [hf]
  · simp at hf

/-- C4: title-length classification is boundary-exact.  With a `<title>`
element present, a stripped title text of exactly 29 characters yields the
HIGH too-short finding; at exactly 30 no HIGH finding is emitted at all and
the length sub-check passes; at exactly 60 the length sub-check passes; at
exactly 61 the MEDIUM too-long finding is emitted. -/
theorem title_length_boundaries (doc : List Node) (t : Node)
    (ht : findFirstTag doc "title" = some t) :
    ((pyStrip (textOf t)).length = 29 →
      Finding.mk "Technical SEO" Severity.high (FKind.titleTooShort 29) ∈ checkTitleTag doc) ∧
    ((pyStrip (textOf t)).length = 30 →
      (∀ f ∈ checkTitleTag doc, f.severity ≠ Severity.high) ∧
      Finding.mk "Technical SEO" Severity.passed (FKind.titleLengthOk 30) ∈ checkTitleTag doc) ∧
    ((pyStrip (textOf t)).length = 60 →
      Finding.mk "Technical SEO" Severity.passed (FKind.titleLengthOk 60) ∈ checkTitleTag doc) ∧
    ((pyStrip (textOf t)).length = 61 →
      Finding.mk "Technical SEO" Severity.medium (FKind.titleTooLong 61) ∈ checkTitleTag doc) := by
  have hne : ∀ n : Nat, (pyStrip (textOf t)).length = n → 0 < n →
      ¬(pyStrip (textOf t) = "") := by
    intro n hn hpos he
    rw [he] at hn
    simp [String.length] at hn
    omega
  have hout : ∀ n : Nat, (pyStrip (textOf t)).length = n → 0 < n →
      checkTitleTag doc =
        titleLengthFindings n ++ titleSeparatorFindings (pyStrip (textOf t)) ++
          titleDuplicateFindings (pyStrip (textOf t)) := by
    intro n hn hpos
    unfold checkTitleTag
    rw [ht]
    simp only [if_neg (hne n hn hpos), hn]
  refine ⟨?_, ?_, ?_, ?_⟩
  · intro h29
    rw [hout 29 h29 (by omega)]
    have : titleLengthFindings 29 =
        [Finding.mk "Technical SEO" Severity.high (FKind.titleTooShort 29)] := by decide
    rw [this]
    simp
  · intro h30
    have heq := hout 30 h30 (by omega)
    have hlen : titleLengthFindings 30 =
        [Finding.mk "Technical SEO" Severity.passed (FKind.titleLengthOk 30)] := by decide
    constructor
    · intro f hf
      rw [heq, hlen] at hf
      simp only [List.mem_append, List.mem_singleton] at hf
      rcases hf with (hf | hf) | hf
      · rw [hf]; decide
      · rw [titleSeparatorFindings_severity _ f hf]; decide
      · rw [titleDuplicateFindings_severity _ f hf]; decide
    · rw [heq, hlen]
      simp
  · intro h60
    rw [hout 60 h60 (by omega)]
    have : titleLengthFindings 60 =
        [Finding.mk "Technical SEO" Severity.passed (FKind.titleLengthOk 60)] := by decide
    rw [this]
    simp
  · intro h61
    rw [hout 61 h61 (by omega)]
    have : titleLengthFindings 61 =
        [Finding.mk "Technical SEO" Severity.medium (FKind.titleTooLong 61)] := by decide
    rw [this]
    simp

/-- A page whose title text has exactly 29 characters. -/
def titleDoc29 : List Node :=
  [Node.elem "title" [] [Node.text "aaaaaaaaaaaaaaaaaaaaaaaaaaaaa"]]

/-- Witness for `title_length_boundaries` on `titleDoc29`. -/
theorem title_length_boundaries_witness :
    findFirstTag titleDoc29 "title" =
      some (Node.elem "title" [] [Node.text "aaaaaaaaaaaaaaaaaaaaaaaaaaaaa"]) ∧
    Finding.mk "Technical SEO" Severity.high (FKind.titleTooShort 29) ∈
      checkTitleTag titleDoc29 := by
  have h : findFirstTag titleDoc29 "title" =
      some (Node.elem "title" [] [Node.text "aaaaaaaaaaaaaaaaaaaaaaaaaaaaa"]) := rfl
  exact ⟨h, (title_length_boundaries titleDoc29 _ h).1 (by decide)⟩

/-- The `if/elif/else` chain of `check_meta_description` on the stripped
`content` text: empty CRITICAL, `< 120` HIGH, `> 160` MEDIUM, otherwise
PASSED. -/
def descLengthFindings (s : String) : List Finding :=
  if s = "" then [⟨"Technical SEO", Severity.critical, FKind.emptyMetaDescription⟩]
  else if s.length < 120 then
    [⟨"Technical SEO", Severity.high, FKind.descriptionTooShort s.length⟩]
  else if s.length > 160 then
    [⟨"Technical SEO", Severity.medium, FKind.descriptionTooLong s.length⟩]
  else [⟨"Technical SEO", Severity.passed, FKind.descriptionLengthOk s.length⟩]

/-- The fixed call-to-action word list of `check_meta_description`. -/
def ctaWords : List String :=
  ["learn", "discover", "get", "find", "explore", "book", "buy", "start", "try", "contact"]

/-- The call-to-action sub-check: LOW when no CTA word occurs in the
lowercase description. -/
def ctaFindings (s : String) : List Finding :=
  if !(ctaWords.any (fun w => containsStr (pyLower s) w)) then
    [⟨"Content Optimization", Severity.low, FKind.missingCTA⟩]
  else []

/-- `AdvancedSEOAuditor.check_meta_description`: looks up
`meta[name=description]` and falls back to `meta[property=og:description]`
(the Python `or`); only when both are absent is the CRITICAL missing finding
emitted (early return); otherwise the length chain on the stripped `content`
attribute (defaulting to the empty string) and the CTA sub-check. -/
def checkMetaDescription (doc : List Node) : List Finding :=
  match findTagAttr doc "meta" "name" "description" <|>
      findTagAttr doc "meta" "property" "og:description" with
  | none => [⟨"Technical SEO", Severity.critical, FKind.missingMetaDescription⟩]
  | some el =>
    descLengthFindings (pyStrip ((attrOf el "content").getD "")) ++
      ctaFindings (pyStrip ((attrOf el "content").getD ""))

/-- An `og:description` meta element with an in-band content text. -/
def ogMetaNode : Node :=
  Node.elem "meta"
    [("property", "og:description"),
     ("content", "Discover practical and detailed steps, examples and guidance for auditing a page, written to sit inside the recommended length band for snippets.")] []

/-- A page carrying only an `og:description` meta tag, no
`meta[name=description]`. -/
def ogOnlyDoc : List Node :=
  [Node.elem "head" [] [ogMetaNode]]

set_option maxRecDepth 100000 in
/-- C6 counterexample: `ogOnlyDoc` has no `meta[name=description]` element,
yet `check_meta_description` does not emit the CRITICAL missing-description
finding — the `og:description` fallback pre-empts it. -/
theorem meta_description_missing_counterexample :
    (findTagAttr ogOnlyDoc "meta" "name" "description").isNone = true ∧
    Finding.mk "Technical SEO" Severity.critical FKind.missingMetaDescription ∉
      checkMetaDescription ogOnlyDoc := by
  constructor
  · rfl
  · decide

theorem missingDesc_not_in_analysis (s : String) :
    Finding.mk "Technical SEO" Severity.critical FKind.missingMetaDescription ∉
      descLengthFindings s ++ ctaFindings s := by
  intro h
  rcases List.mem_append.mp h with h | h
  · unfold descLengthFindings at h
    split at h
    · simp at h
    · split at h
      · simp at h
      · split at h
        · simp at h
        · simp at h
  · unfold ctaFindings at h
    split at h
    · simp at h
    · simp at h

/-- C6 amended: for every document, the CRITICAL missing-meta-description
finding is emitted exactly when both `meta[name=description]` and
`meta[property=og:description]` are absent; when both are absent it is the
whole output, and whenever `meta[name=description]` is absent but an
`og:description` element is present, that element's content is analysed by
the length and CTA sub-checks instead (so no missing finding appears). -/
theorem meta_description_missing_iff (doc : List Node) :
    (Finding.mk "Technical SEO" Severity.critical FKind.missingMetaDescription ∈
        checkMetaDescription doc ↔
      (findTagAttr doc "meta" "name" "description" = none ∧
        findTagAttr doc "meta" "property" "og:description" = none)) ∧
    (findTagAttr doc "meta" "name" "description" = none →
      findTagAttr doc "meta" "property" "og:description" = none →
      checkMetaDescription doc =
        [Finding.mk "Technical SEO" Severity.critical FKind.missingMetaDescription]) ∧
    (∀ el, findTagAttr doc "meta" "name" "description" = none →
      findTagAttr doc "meta" "property" "og:description" = some el →
      checkMetaDescription doc =
        descLengthFindings (pyStrip ((attrOf el "content").getD "")) ++
          ctaFindings (pyStrip ((attrOf el "content").getD ""))) := by
  cases hname : findTagAttr doc "meta" "name" "description" with
  | some el =>
    have hout : checkMetaDescription doc =
        descLengthFindings (pyStrip ((attrOf el "content").getD "")) ++
          ctaFindings (pyStrip ((attrOf el "content").getD "")) := by
      unfold checkMetaDescription
      rw [hname]
      rfl
    refine ⟨?_, ?_, ?_⟩
    · rw [hout]
      constructor
      · intro h
        exact absurd h (missingDesc_not_in_analysis _)
      · intro h
        simp at h
    · intro h1
      simp at h1
    · intro el' h1
      simp at h1
  | none =>
    cases hog : findTagAttr doc "meta" "property" "og:description" with
    | none =>
      have hout : checkMetaDescription doc =
          [Finding.mk "Technical SEO" Severity.critical FKind.missingMetaDescription] := by
        unfold checkMetaDescription
        rw [hname, hog]
        rfl
      refine ⟨?_, fun _ _ => hout, ?_⟩
      · rw [hout]
        constructor
        · intro _
          exact ⟨rfl, rfl⟩
        · intro _
          simp
      · intro el h1 h2
        simp at h2
    | some el =>
      have hout : checkMetaDescription doc =
          descLengthFindings (pyStrip ((attrOf el "content").getD "")) ++
            ctaFindings (pyStrip ((attrOf el "content").getD "")) := by
        unfold checkMetaDescription
        rw [hname, hog]
        rfl
      refine ⟨?_, ?_, ?_⟩
      · rw [hout]
        constructor
        · intro h
          exact absurd h (missingDesc_not_in_analysis _)
        · intro h
          simp at h
      · intro h1 h2
        simp at h2
      · intro el' h1 h2
        injection h2 with h
        rw [← h]
        exact hout

set_option maxRecDepth 100000 in
/-- Witness for `meta_description_missing_iff`: both the both-absent path
(empty document) and the og-fallback path (`ogOnlyDoc`). -/
theorem meta_description_missing_iff_witness :
    checkMetaDescription [] =
      [Finding.mk "Technical SEO" Severity.critical FKind.missingMetaDescription] ∧
    checkMetaDescription ogOnlyDoc =
      descLengthFindings (pyStrip ((attrOf ogMetaNode "content").getD "")) ++
        ctaFindings (pyStrip ((attrOf ogMetaNode "content").getD "")) :=
  ⟨(meta_description_missing_iff []).2.1 rfl rfl,
   (meta_description_missing_iff ogOnlyDoc).2.2 ogMetaNode rfl rfl⟩

/-- The H1 part of `check_headings_structure`: zero H1s CRITICAL, more than
one HIGH (with the `h1_tags` list of `[:100]`-truncated stripped texts),
exactly one PASSED followed by the MEDIUM too-short sub-check under 20
characters. -/
def h1Findings (doc : List Node) : List Finding :=
  match findAllTag doc "h1" with
  | [] => [⟨"Technical SEO", Severity.critical, FKind.missingH1⟩]
  | [t] =>
    ⟨"Technical SEO", Severity.passed, FKind.h1Found (strTake (pyStrip (textOf t)) 100)⟩ ::
      (if (pyStrip (textOf t)).length < 20 then
        [⟨"Content Optimization", Severity.medium, FKind.h1TooShort (pyStrip (textOf t)).length⟩]
      else [])
  | ts =>
    [⟨"Technical SEO", Severity.high,
      FKind.multipleH1 (ts.map (fun n => strTake (pyStrip (textOf n)) 100))⟩]

/-- `headings_data` is non-empty: some `h1..h6` tag occurs. -/
def anyHeadings (doc : List Node) : Bool :=
  !(findAllTag doc "h1").isEmpty || !(findAllTag doc "h2").isEmpty ||
    !(findAllTag doc "h3").isEmpty || !(findAllTag doc "h4").isEmpty ||
    !(findAllTag doc "h5").isEmpty || !(findAllTag doc "h6").isEmpty

/-- The `hierarchy_issues` list: H3 without H2, H4 without H3. -/
def hierarchyIssues (doc : List Node) : List String :=
  (if !(findAllTag doc "h3").isEmpty && (findAllTag doc "h2").isEmpty then
    ["H3 used without H2"] else []) ++
  (if !(findAllTag doc "h4").isEmpty && (findAllTag doc "h3").isEmpty then
    ["H4 used without H3"] else [])

/-- The hierarchy part of `check_headings_structure`: run only when some
heading exists; MEDIUM with the issue list when it is non-empty, PASSED
otherwise. -/
def hierarchyFindings (doc : List Node) : List Finding :=
  if anyHeadings doc then
    if hierarchyIssues doc ≠ [] then
      [⟨"Technical SEO", Severity.medium, FKind.brokenHierarchy (hierarchyIssues doc)⟩]
    else [⟨"Technical SEO", Severity.passed, FKind.hierarchyOk⟩]
  else []

/-- `AdvancedSEOAuditor.check_headings_structure`: the H1 branch, then the
hierarchy branch. -/
def checkHeadingsStructure (doc : List Node) : List Finding :=
  h1Findings doc ++ hierarchyFindings doc

/-- Findings about H1 presence/count (the three heads of the H1 branch). -/
def isH1PresenceKind : FKind → Bool
  | .missingH1 => true
  | .multipleH1 _ => true
  | .h1Found _ => true
  | _ => false

theorem hierarchyFindings_tame (doc : List Node) :
    ∀ f ∈ hierarchyFindings doc,
      isH1PresenceKind f.kind = false ∧ f.severity ≠ Severity.critical := by
  intro f hf
  unfold hierarchyFindings at hf
  split at hf
  · split at hf
    · simp at hf
      rw [hf]
      exact ⟨rfl, by simp⟩
    · simp at hf
      rw [hf]
      exact ⟨rfl, by simp⟩
  · simp at hf

/-- C5: on a document with exactly two `<h1>` elements the heading check
emits exactly one H1-presence finding; it is the HIGH multiple-H1 finding
(never CRITICAL — no finding of the check is CRITICAL here), and its
`h1_tags` payload has length 2. -/
theorem h1_double_exactly_one_high (doc : List Node)
    (h : (findAllTag doc "h1").length = 2) :
    (checkHeadingsStructure doc).filter (fun f => isH1PresenceKind f.kind) =
      [⟨"Technical SEO", Severity.high,
        FKind.multipleH1 ((findAllTag doc "h1").map (fun n => strTake (pyStrip (textOf n)) 100))⟩] ∧
    ((findAllTag doc "h1").map (fun n => strTake (pyStrip (textOf n)) 100)).length = 2 ∧
    ∀ f ∈ checkHeadingsStructure doc, f.severity ≠ Severity.critical := by
  obtain ⟨a, b, hab⟩ := List.length_eq_two.mp h
  have hh1 : h1Findings doc =
      [⟨"Technical SEO", Severity.high,
        FKind.multipleH1 ((findAllTag doc "h1").map (fun n => strTake (pyStrip (textOf n)) 100))⟩] := by
    unfold h1Findings
    rw [hab]
  have hfilter : (hierarchyFindings doc).filter (fun f => isH1PresenceKind f.kind) = [] := by
    rw [List.filter_eq_nil_iff]
    intro f hf
    simp [(hierarchyFindings_tame doc f hf).1]
  refine ⟨?_, ?_, ?_⟩
  · unfold checkHeadingsStructure
    rw [List.filter_append, hh1, hfilter]
    simp [isH1PresenceKind]
  · rw [hab]
    simp
  · intro f hf
    unfold checkHeadingsStructure at hf
    rcases List.mem_append.mp hf with hf | hf
    · rw [hh1] at hf
      simp at hf
      rw [hf]
      simp
    · exact (hierarchyFindings_tame doc f hf).2

/-- A page with two `<h1>` elements. -/
def h1Doc : List Node :=
  [Node.elem "body" []
    [Node.elem "h1" [] [Node.text "First heading"],
     Node.elem "h1" [] [Node.text "Second heading"]]]

/-- Witness for `h1_double_exactly_one_high` on `h1Doc`. -/
theorem h1_double_exactly_one_high_witness :
    (checkHeadingsStructure h1Doc).filter (fun f => isH1PresenceKind f.kind) =
      [⟨"Technical SEO", Severity.high,
        FKind.multipleH1 ((findAllTag h1Doc "h1").map (fun n => strTake (pyStrip (textOf n)) 100))⟩] ∧
    ((findAllTag h1Doc "h1").map (fun n => strTake (pyStrip (textOf n)) 100)).length = 2 ∧
    ∀ f ∈ checkHeadingsStructure h1Doc, f.severity ≠ Severity.critical :=
  h1_double_exactly_one_high h1Doc (by decide)

/-- The fixed `stop_words` set of `analyze_content_quality`. -/
def stopWords : List String :=
  ["the", "a", "an", "and", "or", "but", "in", "on", "at", "to", "for", "of",
   "with", "is", "was", "are", "were", "been", "be", "have", "has", "had",
   "do", "does", "did", "will", "would", "could", "should", "may", "might",
   "can", "this", "that", "these", "those", "i", "you", "he", "she", "it",
   "we", "they", "their", "them"]

/-- `clean_words` in `analyze_content_quality`: lowercased tokens of length
greater than 3 that are alphabetic and whose lowercase form is not a stop
word. -/
def cleanWords (words : List String) : List String :=
  (words.filter (fun w =>
    decide (3 < w.length) && !(stopWords.contains (pyLower w)) && isAlphaStr w)).map pyLower

/-- `Counter(clean_words)` as an association list in first-occurrence
order. -/
def counterItems (ws : List String) : List (String × Nat) :=
  (dedupFirst ws).map (fun w => (w, ws.count w))

/-- Stable descending insertion by count (equal counts stay behind earlier
entries, as in `Counter.most_common`). -/
def insertByCountDesc (x : String × Nat) : List (String × Nat) → List (String × Nat)
  | [] => [x]
  | y :: ys => if y.2 < x.2 then x :: y :: ys else y :: insertByCountDesc x ys

/-- Stable sort by count, descending. -/
def sortByCountDesc (l : List (String × Nat)) : List (String × Nat) :=
  l.foldr insertByCountDesc []

/-- `Counter.most_common(n)`: the first `n` entries of the stable descending
sort. -/
def mostCommon (n : Nat) (l : List (String × Nat)) : List (String × Nat) :=
  (sortByCountDesc l).take n

/-- The keyword extraction of `analyze_content_quality` as a function of the
cleaned page text: `top_keywords = Counter(clean_words).most_common(10)`,
recorded only when `clean_words` is non-empty (absence is modelled as the
empty list). -/
def topKeywords (text : String) : List (String × Nat) :=
  if (cleanWords (pySplitWs text)).isEmpty then []
  else mostCommon 10 (counterItems (cleanWords (pySplitWs text)))

theorem mem_dedupFirstGo (a : String) :
    ∀ (l seen : List String), a ∈ dedupFirstGo seen l → a ∈ l := by
  intro l
  induction l with
  | nil => intro seen h; simp [dedupFirstGo] at h
  | cons w rest ih =>
    intro seen h
    unfold dedupFirstGo at h
    split at h
    · exact List.mem_cons_of_mem _ (ih _ h)
    · rcases List.mem_cons.mp h with h | h
      · rw [h]; exact List.mem_cons_self _ _
      · exact List.mem_cons_of_mem _ (ih _ h)

theorem mem_dedupFirst {a : String} {l : List String} (h : a ∈ dedupFirst l) : a ∈ l :=
  mem_dedupFirstGo a l [] h

theorem mem_counterItems {ws : List String} {kv : String × Nat}
    (h : kv ∈ counterItems ws) : kv.1 ∈ ws ∧ kv.2 = ws.count kv.1 := by
  unfold counterItems at h
  rcases List.mem_map.mp h with ⟨w, hw, heq⟩
  cases heq
  exact ⟨mem_dedupFirst hw, rfl⟩

theorem mem_insertByCountDesc {x a : String × Nat} :
    ∀ {l : List (String × Nat)}, a ∈ insertByCountDesc x l → a = x ∨ a ∈ l := by
  intro l
  induction l with
  | nil => intro h; simp [insertByCountDesc] at h; exact Or.inl h
  | cons y ys ih =>
    intro h
    unfold insertByCountDesc at h
    split at h
    · rcases List.mem_cons.mp h with h | h
      · exact Or.inl h
      · exact Or.inr h
    · rcases List.mem_cons.mp h with h | h
      · exact Or.inr (by rw [h]; exact List.mem_cons_self _ _)
      · rcases ih h with h | h
        · exact Or.inl h
        · exact Or.inr (List.mem_cons_of_mem _ h)

theorem mem_sortByCountDesc {a : String × Nat} :
    ∀ {l : List (String × Nat)}, a ∈ sortByCountDesc l → a ∈ l := by
  intro l
  induction l with
  | nil => intro h; simp [sortByCountDesc] at h
  | cons x xs ih =>
    intro h
    have h' : a ∈ insertByCountDesc x (sortByCountDesc xs) := h
    rcases mem_insertByCountDesc h' with h'' | h''
    · rw [h'']; exact List.mem_cons_self _ _
    · exact List.mem_cons_of_mem _ (ih h'')

theorem pairwise_insertByCountDesc {x : String × Nat} {l : List (String × Nat)}
    (h : l.Pairwise (fun a b => b.2 ≤ a.2)) :
    (insertByCountDesc x l).Pairwise (fun a b => b.2 ≤ a.2) := by
  induction l with
  | nil => simp [insertByCountDesc]
  | cons y ys ih =>
    unfold insertByCountDesc
    rcases List.pairwise_cons.mp h with ⟨hy, hys⟩
    split
    · rename_i hlt
      refine List.pairwise_cons.mpr ⟨?_, h⟩
      intro z hz
      rcases List.mem_cons.mp hz with hz | hz
      · rw [hz]; omega
      · have := hy z hz; omega
    · rename_i hge
      refine List.pairwise_cons.mpr ⟨?_, ih hys⟩
      intro z hz
      rcases mem_insertByCountDesc hz with hz | hz
      · rw [hz]; omega
      · exact hy z hz

theorem pairwise_sortByCountDesc (l : List (String × Nat)) :
    (sortByCountDesc l).Pairwise (fun a b => b.2 ≤ a.2) := by
  induction l with
  | nil => simp [sortByCountDesc]
  | cons x xs ih => exact pairwise_insertByCountDesc ih

/-- C7 amended: every extracted keyword comes from a token of the text that
is alphabetic, longer than 3 characters and not a stop word (lowercased),
its count is the token frequency in `clean_words` and is positive; the list
is ranked by descending count and has at most 10 entries.  On the input
"the cat sat on the mat and the cat ran" every token is a stop word or at
most 3 characters long, so no keyword is extracted at all. -/
theorem keyword_extraction_filter (text : String) :
    (∀ kw c, (kw, c) ∈ topKeywords text →
      (∃ w, w ∈ pySplitWs text ∧ kw = pyLower w ∧ 3 < w.length ∧
        stopWords.contains (pyLower w) = false ∧ isAlphaStr w = true) ∧
      c = (cleanWords (pySplitWs text)).count kw ∧ 0 < c) ∧
    (topKeywords text).Pairwise (fun a b => b.2 ≤ a.2) ∧
    (topKeywords text).length ≤ 10 := by
  refine ⟨?_, ?_, ?_⟩
  · intro kw c hmem
    unfold topKeywords at hmem
    split at hmem
    · simp at hmem
    · have hsort : (kw, c) ∈ sortByCountDesc (counterItems (cleanWords (pySplitWs text))) :=
        List.mem_of_mem_take hmem
      have hitems := mem_counterItems (mem_sortByCountDesc hsort)
      have hkw : kw ∈ cleanWords (pySplitWs text) := hitems.1
      have hc : c = (cleanWords (pySplitWs text)).count kw := hitems.2
      refine ⟨?_, hc, ?_⟩
      · unfold cleanWords at hkw
        rcases List.mem_map.mp hkw with ⟨w, hwf, hwl⟩
        rcases List.mem_filter.mp hwf with ⟨hwmem, hcond⟩
        simp only [Bool.and_eq_true, decide_eq_true_eq, Bool.not_eq_true'] at hcond
        exact ⟨w, hwmem, hwl.symm, hcond.1.1, hcond.1.2, hcond.2⟩
      · rw [hc]
        exact List.count_pos_iff.mpr hkw
  · unfold topKeywords
    split
    · simp
    · exact (pairwise_sortByCountDesc _).sublist (List.take_sublist _ _)
  · unfold topKeywords
    split
    · simp
    · exact List.length_take_le _ _

/-- C7 counterexample: on the spec's example input the extraction produces
no keyword at all — "cat" has only 3 characters, so it is filtered out and
is in particular not the top keyword with count 2. -/
theorem keyword_example_counterexample :
    topKeywords "the cat sat on the mat and the cat ran" = [] ∧
    (topKeywords "the cat sat on the mat and the cat ran").head? ≠ some ("cat", 2) := by
  have h : topKeywords "the cat sat on the mat and the cat ran" = [] := by decide
  exact ⟨h, by rw [h]; simp⟩

/-- Witness for `keyword_extraction_filter` on a text with a real keyword. -/
theorem keyword_extraction_filter_witness :
    (∃ w, w ∈ pySplitWs "wonderful wonderful things" ∧ "wonderful" = pyLower w ∧
      3 < w.length ∧ stopWords.contains (pyLower w) = false ∧ isAlphaStr w = true) ∧
    2 = (cleanWords (pySplitWs "wonderful wonderful things")).count "wonderful" ∧ 0 < 2 :=
  (keyword_extraction_filter "wonderful wonderful things").1 "wonderful" 2 (by decide)

/-- The load-time `if/elif/else` chain of `check_page_performance`:
`> 3` HIGH, `> 2` MEDIUM, otherwise PASSED. -/
def loadTimeFindings (loadTime : ℚ) : List Finding :=
  if loadTime > 3 then [⟨"Performance", Severity.high, FKind.slowLoadTime⟩]
  else if loadTime > 2 then [⟨"Performance", Severity.medium, FKind.improvableLoadTime⟩]
  else [⟨"Performance", Severity.passed, FKind.loadTimeOk⟩]

/-- The page-size chain of `check_page_performance`, on
`page_size_mb = bytes/1024/1024` and `page_size_kb = bytes/1024`. -/
def pageSizeFindings (contentBytes : Nat) : List Finding :=
  if (contentBytes : ℚ) / 1024 / 1024 > 2 then
    [⟨"Performance", Severity.high, FKind.largePageSize⟩]
  else if (contentBytes : ℚ) / 1024 > 1024 then
    [⟨"Performance", Severity.medium, FKind.improvablePageSize⟩]
  else [⟨"Performance", Severity.passed, FKind.pageSizeOk⟩]

/-- The compression sub-check: MEDIUM when no `Content-Encoding` response
header is present. -/
def compressionFindings (headers : List (String × String)) : List Finding :=
  if !(headers.any (fun p => p.1 == "Content-Encoding")) then
    [⟨"Performance", Severity.medium, FKind.noCompression⟩]
  else []

/-- `AdvancedSEOAuditor.check_page_performance`: the load-time chain, the
page-size chain and the compression sub-check, in source order. -/
def checkPagePerformance (loadTime : ℚ) (contentBytes : Nat)
    (headers : List (String × String)) : List Finding :=
  loadTimeFindings loadTime ++ pageSizeFindings contentBytes ++
    compressionFindings headers

/-- The findings emitted by the load-time chain. -/
def isLoadTimeKind : FKind → Bool
  | .slowLoadTime => true
  | .improvableLoadTime => true
  | .loadTimeOk => true
  | _ => false

theorem pageSizeFindings_not_load (b : Nat) :
    ∀ f ∈ pageSizeFindings b, isLoadTimeKind f.kind = false := by
  intro f hf
  unfold pageSizeFindings at hf
  split at hf
  · simp at hf; rw [hf]; rfl
  · split at hf
    · simp at hf; rw [hf]; rfl
    · simp at hf; rw [hf]; rfl

theorem compressionFindings_not_load (hs : List (String × String)) :
    ∀ f ∈ compressionFindings hs, isLoadTimeKind f.kind = false := by
  intro f hf
  unfold compressionFindings at hf
  split at hf
  · simp at hf; rw [hf]; rfl
  · simp at hf

/-- C9 amended: the load-time chain always emits exactly one finding:
HIGH for a load time strictly above 3 seconds, MEDIUM for a load time in
`(2, 3]` (the boundary at exactly 3 is MEDIUM), and PASSED for a load time
of at most 2 seconds — the boundary at exactly 2 falls in the PASSED band,
not the MEDIUM one. -/
theorem load_time_bands (t : ℚ) (bytes : Nat) (hs : List (String × String)) :
    ((checkPagePerformance t bytes hs).filter (fun f => isLoadTimeKind f.kind)).length = 1 ∧
    (3 < t →
      (checkPagePerformance t bytes hs).filter (fun f => isLoadTimeKind f.kind) =
        [⟨"Performance", Severity.high, FKind.slowLoadTime⟩]) ∧
    (2 < t ∧ t ≤ 3 →
      (checkPagePerformance t bytes hs).filter (fun f => isLoadTimeKind f.kind) =
        [⟨"Performance", Severity.medium, FKind.improvableLoadTime⟩]) ∧
    (t ≤ 2 →
      (checkPagePerformance t bytes hs).filter (fun f => isLoadTimeKind f.kind) =
        [⟨"Performance", Severity.passed, FKind.loadTimeOk⟩]) := by
  have hB : (pageSizeFindings bytes).filter (fun f => isLoadTimeKind f.kind) = [] := by
    rw [List.filter_eq_nil_iff]
    intro f hf
    simp [pageSizeFindings_not_load bytes f hf]
  have hC : (compressionFindings hs).filter (fun f => isLoadTimeKind f.kind) = [] := by
    rw [List.filter_eq_nil_iff]
    intro f hf
    simp [compressionFindings_not_load hs f hf]
  have hsplit : (checkPagePerformance t bytes hs).filter (fun f => isLoadTimeKind f.kind) =
      (loadTimeFindings t).filter (fun f => isLoadTimeKind f.kind) := by
    unfold checkPagePerformance
    rw [List.filter_append, List.filter_append, hB, hC, List.append_nil, List.append_nil]
  have hA : (loadTimeFindings t).filter (fun f => isLoadTimeKind f.kind) = loadTimeFindings t := by
    unfold loadTimeFindings
    split
    · rfl
    · split
      · rfl
      · rfl
  refine ⟨?_, ?_, ?_, ?_⟩
  · rw [hsplit, hA]
    unfold loadTimeFindings
    split
    · rfl
    · split
      · rfl
      · rfl
  · intro h3
    rw [hsplit, hA]
    unfold loadTimeFindings
    rw [if_pos h3]
  · intro h23
    rw [hsplit, hA]
    unfold loadTimeFindings
    rw [if_neg (by linarith [h23.2] : ¬(t > 3)), if_pos h23.1]
  · intro h2
    rw [hsplit, hA]
    unfold loadTimeFindings
    rw [if_neg (by linarith : ¬(t > 3)), if_neg (by linarith : ¬(t > 2))]

/-- C9 counterexample: at a load time of exactly 2 seconds the load-time
chain emits the PASSED finding, not the MEDIUM one the claim places there. -/
theorem load_time_boundary_counterexample :
    (checkPagePerformance 2 1000 []).filter (fun f => isLoadTimeKind f.kind) =
      [⟨"Performance", Severity.passed, FKind.loadTimeOk⟩] ∧
    Finding.mk "Performance" Severity.medium FKind.improvableLoadTime ∉
      checkPagePerformance 2 1000 [] := by
  have hload : loadTimeFindings 2 = [⟨"Performance", Severity.passed, FKind.loadTimeOk⟩] := by
    unfold loadTimeFindings
    rw [if_neg (by norm_num : ¬((2 : ℚ) > 3)), if_neg (by norm_num : ¬((2 : ℚ) > 2))]
  have hsize : pageSizeFindings 1000 = [⟨"Performance", Severity.passed, FKind.pageSizeOk⟩] := by
    unfold pageSizeFindings
    rw [if_neg (by norm_num : ¬(((1000 : ℕ) : ℚ) / 1024 / 1024 > 2)),
      if_neg (by norm_num : ¬(((1000 : ℕ) : ℚ) / 1024 > 1024))]
  have hcomp : compressionFindings [] =
      [⟨"Performance", Severity.medium, FKind.noCompression⟩] := rfl
  have hall : checkPagePerformance 2 1000 [] =
      [⟨"Performance", Severity.passed, FKind.loadTimeOk⟩,
       ⟨"Performance", Severity.passed, FKind.pageSizeOk⟩,
       ⟨"Performance", Severity.medium, FKind.noCompression⟩] := by
    unfold checkPagePerformance
    rw [hload, hsize, hcomp]
    rfl
  rw [hall]
  exact ⟨by decide, by decide⟩

/-- Witness for `load_time_bands` in the `(2, 3]` band. -/
theorem load_time_bands_witness :
    (checkPagePerformance (5 / 2) 1000 []).filter (fun f => isLoadTimeKind f.kind) =
      [⟨"Performance", Severity.medium, FKind.improvableLoadTime⟩] :=
  (load_time_bands (5 / 2) 1000 []).2.2.1 (by norm_num)

/-- Classification outcome for one `<a href>` in `check_internal_linking`. -/
inductive LinkClass where
  | internal
  | external
  | skipped
deriving DecidableEq, Repr

/-- The skip test of `check_internal_linking`:
`not href or href.startswith(('javascript:', 'mailto:', 'tel:', '#'))`. -/
def isSkippedHref (href : String) : Bool :=
  href == "" || listIsPrefix "javascript:".data href.data ||
    listIsPrefix "mailto:".data href.data || listIsPrefix "tel:".data href.data ||
    listIsPrefix "#".data href.data

/-- A syntactically valid URI scheme: a letter followed by letters, digits,
`+`, `-` or `.`. -/
def validScheme (s : String) : Bool :=
  !s.isEmpty && ((s.data.head?.map Char.isAlpha).getD false) &&
    s.data.all (fun c => c.isAlpha || c.isDigit || c == '+' || c == '-' || c == '.')

/-- The authority component: everything up to the first `/`, `?` or `#`. -/
def netlocPart (cs : List Char) : String :=
  ⟨cs.takeWhile (fun c => c != '/' && c != '?' && c != '#')⟩

/-- Splits `href` at its first `://`, returning the candidate scheme and the
remainder, when present. -/
def splitSchemeAux (acc : List Char) : List Char → Option (String × List Char)
  | [] => none
  | ':' :: '/' :: '/' :: rest => some (⟨acc.reverse⟩, rest)
  | c :: rest => splitSchemeAux (c :: acc) rest

/-- Modelled from the spec: the URL-resolution collaborator
(`urljoin(self.url, href)` followed by `urlparse(...).netloc`, §6 of the
design).  A scheme-qualified or protocol-relative reference carries its own
authority; any other reference is resolved against the page URL, whose
authority is `self.domain`.  References whose netloc the Python pair leaves
empty (such as non-hierarchical schemes) and these relative references agree
with this model on the internal/external decision, which is all
`check_internal_linking` reads. -/
def resolvedNetloc (domain href : String) : String :=
  if listIsPrefix "//".data href.data then netlocPart (href.data.drop 2)
  else
    match splitSchemeAux [] href.data with
    | some (scheme, rest) => if validScheme scheme then netlocPart rest else domain
    | none => domain

/-- The per-href classification of `check_internal_linking`: skip empty and
`javascript:`/`mailto:`/`tel:`/`#` targets; otherwise internal when the
resolved netloc equals `self.domain` or is empty, else external. -/
def classifyLink (domain href : String) : LinkClass :=
  if isSkippedHref href then LinkClass.skipped
  else if resolvedNetloc domain href == domain || resolvedNetloc domain href == "" then
    LinkClass.internal
  else LinkClass.external

/-- The loop of `check_internal_linking` over the page's hrefs, building the
`internal_links` and `external_links` lists (each entry recorded here by its
href). -/
def linkBuckets (domain : String) (hrefs : List String) : List String × List String :=
  hrefs.foldl
    (fun acc href =>
      match classifyLink domain href with
      | LinkClass.internal => (acc.1 ++ [href], acc.2)
      | LinkClass.external => (acc.1, acc.2 ++ [href])
      | LinkClass.skipped => acc)
    ([], [])

theorem linkBuckets_eq (domain : String) (hrefs : List String) :
    linkBuckets domain hrefs =
      (hrefs.filter (fun h => classifyLink domain h == LinkClass.internal),
       hrefs.filter (fun h => classifyLink domain h == LinkClass.external)) := by
  suffices h : ∀ acc : List String × List String,
      hrefs.foldl
        (fun acc href =>
          match classifyLink domain href with
          | LinkClass.internal => (acc.1 ++ [href], acc.2)
          | LinkClass.external => (acc.1, acc.2 ++ [href])
          | LinkClass.skipped => acc)
        acc =
      (acc.1 ++ hrefs.filter (fun h => classifyLink domain h == LinkClass.internal),
       acc.2 ++ hrefs.filter (fun h => classifyLink domain h == LinkClass.external)) by
    have := h ([], [])
    simpa [linkBuckets] using this
  induction hrefs with
  | nil => intro acc; simp
  | cons x xs ih =>
    intro acc
    simp only [List.foldl_cons, List.filter_cons]
    cases hc : classifyLink domain x with
    | internal =>
      rw [ih]
      simp
    | external =>
      rw [ih]
      simp
    | skipped =>
      rw [ih]
      simp

/-- C8: link classification is total and exclusive.  A non-empty href not
starting with `javascript:`, `mailto:`, `tel:` or `#` is classified as
exactly one of internal/external and lands in exactly that bucket; it is
internal precisely when its resolved netloc is the page domain or empty, so
every relative reference (no scheme, not protocol-relative) is internal
regardless of query string or fragment; skipped hrefs appear in neither
bucket. -/
theorem link_classification_total (domain : String) (hrefs : List String)
    (href : String) (hmem : href ∈ hrefs) :
    (isSkippedHref href = false →
      (classifyLink domain href = LinkClass.internal ∨
        classifyLink domain href = LinkClass.external) ∧
      (classifyLink domain href = LinkClass.internal ↔
        (resolvedNetloc domain href = domain ∨ resolvedNetloc domain href = "")) ∧
      ((listIsPrefix "//".data href.data = false ∧ splitSchemeAux [] href.data = none) →
        classifyLink domain href = LinkClass.internal) ∧
      (href ∈ (linkBuckets domain hrefs).1 ↔ classifyLink domain href = LinkClass.internal) ∧
      (href ∈ (linkBuckets domain hrefs).2 ↔ classifyLink domain href = LinkClass.external)) ∧
    (isSkippedHref href = true →
      href ∉ (linkBuckets domain hrefs).1 ∧ href ∉ (linkBuckets domain hrefs).2) := by
  have hmem1 : href ∈ (linkBuckets domain hrefs).1 ↔
      classifyLink domain href = LinkClass.internal := by
    rw [linkBuckets_eq]
    constructor
    · intro h
      have := List.mem_filter.mp h
      exact beq_iff_eq.mp this.2
    · intro h
      exact List.mem_filter.mpr ⟨hmem, beq_iff_eq.mpr h⟩
  have hmem2 : href ∈ (linkBuckets domain hrefs).2 ↔
      classifyLink domain href = LinkClass.external := by
    rw [linkBuckets_eq]
    constructor
    · intro h
      have := List.mem_filter.mp h
      exact beq_iff_eq.mp this.2
    · intro h
      exact List.mem_filter.mpr ⟨hmem, beq_iff_eq.mpr h⟩
  constructor
  · intro hskip
    have hcls : classifyLink domain href =
        (if resolvedNetloc domain href == domain || resolvedNetloc domain href == "" then
          LinkClass.internal
        else LinkClass.external) := by
      unfold classifyLink
      rw [hskip]
      simp
    refine ⟨?_, ?_, ?_, hmem1, hmem2⟩
    · rw [hcls]
      split
      · exact Or.inl rfl
      · exact Or.inr rfl
    · rw [hcls]
      constructor
      · intro h
        by_contra hcon
        push_neg at hcon
        rw [if_neg (by simp [hcon.1, hcon.2])] at h
        cases h
      · intro h
        rw [if_pos (by rcases h with h | h <;> simp [h])]
    · intro ⟨hpre, hscheme⟩
      have hnet : resolvedNetloc domain href = domain := by
        unfold resolvedNetloc
        rw [hpre]
        simp [hscheme]
      rw [hcls, hnet]
      simp
  · intro hskip
    have hcls : classifyLink domain href = LinkClass.skipped := by
      unfold classifyLink
      rw [hskip]
      simp
    constructor
    · intro h
      rw [hmem1, hcls] at h
      cases h
    · intro h
      rw [hmem2, hcls] at h
      cases h

/-- Witness for `link_classification_total`: a same-domain relative link with
a query string is internal, an absolute off-domain link is external, and an
anchor href lands in neither bucket. -/
theorem link_classification_total_witness :
    "/about?q=1" ∈ (linkBuckets "example.com" ["/about?q=1", "https://other.com/x", "#top"]).1 ∧
    "https://other.com/x" ∈
      (linkBuckets "example.com" ["/about?q=1", "https://other.com/x", "#top"]).2 ∧
    "#top" ∉ (linkBuckets "example.com" ["/about?q=1", "https://other.com/x", "#top"]).1 ∧
    "#top" ∉ (linkBuckets "example.com" ["/about?q=1", "https://other.com/x", "#top"]).2 := by
  have h1 := (link_classification_total "example.com"
    ["/about?q=1", "https://other.com/x", "#top"] "/about?q=1" (by decide)).1 (by decide)
  have h2 := (link_classification_total "example.com"
    ["/about?q=1", "https://other.com/x", "#top"] "https://other.com/x" (by decide)).1 (by decide)
  have h3 := (link_classification_total "example.com"
    ["/about?q=1", "https://other.com/x", "#top"] "#top" (by decide)).2 (by decide)
  exact ⟨h1.2.2.2.1.mpr (by decide), h2.2.2.2.2.mpr (by decide), h3.1, h3.2⟩
